import Mathlib

/-!
Verification development for a LINE chat-bot backend (`app.py`): a webhook
receiver that scrapes UDN news category listings, paginates them per
conversation, and derives word-cloud / sentiment / summary features from the
titles a conversation has already seen.

The Python source is shallow-embedded below.  Network effects (the scraped
listing, an article fetch, the reply API) are passed in as explicit
parameters; Python dicts are modelled as association lists with
first-match lookup and in-place update, mirroring dict key semantics.
-/

namespace LinebotApp

/-- Python substring test `w in s` on lists of characters:
`subListIn w s` is true iff `w` occurs contiguously inside `s`
(the empty needle is always contained, as in Python). -/
def subListIn (w : List Char) : List Char → Bool
  | [] => w.isEmpty
  | c :: rest => w.isPrefixOf (c :: rest) || subListIn w rest

/-- Python `w in s` for strings (`s` is the haystack, `w` the needle). -/
def containsSub (s w : String) : Bool :=
  subListIn w.data s.data

/-- Python dict read `d.get(k)` over an association list (first match wins,
as in a dict, since keys are unique under `dictSet`). -/
def dictGet {β : Type} : List (String × β) → String → Option β
  | [], _ => none
  | (k0, v0) :: rest, k => if k0 = k then some v0 else dictGet rest k

/-- Python dict write `d[k] = v`: replace the value at an existing key in
place, otherwise append the new binding. -/
def dictSet {β : Type} : List (String × β) → String → β → List (String × β)
  | [], k, v => [(k, v)]
  | (k0, v0) :: rest, k, v =>
    if k0 = k then (k, v) :: rest else (k0, v0) :: dictSet rest k v

-- ===================================
-- Static configuration (app.py lines 45-103)
-- ===================================

/-- `BASE_URL = 'https://udn.com'` -/
def BASE_URL : String := "https://udn.com"

structure CategoryInfo where
  name : String
  url : String
deriving DecidableEq

/-- The `CATEGORIES` table (app.py lines 48-69), in dict insertion order. -/
def CATEGORIES : List (String × CategoryInfo) :=
  [("sports", ⟨"運動", "https://udn.com/news/cate/2/7227"⟩),
   ("global", ⟨"全球", "https://udn.com/news/cate/2/7225"⟩),
   ("stock", ⟨"股市", "https://udn.com/news/cate/2/6645"⟩),
   ("social", ⟨"社會", "https://udn.com/news/cate/2/6639"⟩),
   ("econ", ⟨"產經", "https://udn.com/news/cate/2/6644"⟩)]

/-- The `CATEGORY_ALIASES` table (app.py lines 72-78), in dict insertion order. -/
def CATEGORY_ALIASES : List (String × List String) :=
  [("sports", ["運動", "體育"]),
   ("global", ["全球", "國際"]),
   ("stock", ["股市", "股票"]),
   ("social", ["社會"]),
   ("econ", ["產經", "財經", "經濟"])]

/-- `PAGE_SIZE = 5` -/
def PAGE_SIZE : Nat := 5

/-- `POSITIVE_WORDS` (app.py lines 95-98). -/
def POSITIVE_WORDS : List String :=
  ["成長", "獲利", "創高", "創新高", "利多", "看好", "獎", "奪冠", "勝", "大勝",
   "飆升", "上漲", "暢旺", "樂觀", "改善", "突破", "熱烈", "亮眼", "好消息"]

/-- `NEGATIVE_WORDS` (app.py lines 99-103). -/
def NEGATIVE_WORDS : List String :=
  ["下跌", "重挫", "暴跌", "虧損", "災", "意外", "火警", "颱風", "地震", "暴雨",
   "死亡", "罹難", "警告", "風險", "衰退", "負成長", "爆炸", "暴力", "侵害", "詐騙",
   "憂慮", "利空"]

-- ===================================
-- Data model
-- ===================================

/-- One scraped listing entry: `{'標題': ..., '連結': ...}`. -/
structure NewsItem where
  title : String
  url : String
deriving DecidableEq

/-- The two process-wide state dicts (app.py lines 85 and 89):
`news_page_state : chat_id → category → page` and
`seen_titles_state : chat_id → key → titles` (keys are category keys
plus the special key `"all"`). -/
structure BotState where
  newsPageState : List (String × List (String × Nat))
  seenTitlesState : List (String × List (String × List String))
deriving DecidableEq

/-- The empty process state at startup. -/
def initialState : BotState := ⟨[], []⟩

/-- The page counter the handler would use for a chat and category:
`news_page_state.get(chat_id, {}).get(category_key, 1)`. -/
def pageOf (st : BotState) (chatId cat : String) : Nat :=
  ((dictGet st.newsPageState chatId |>.getD []) |> fun d => dictGet d cat).getD 1

/-- The seen-titles list for a chat and key:
`seen_titles_state.get(chat_id, {}).get(key, [])`. -/
def seenCat (st : BotState) (chatId key : String) : List String :=
  ((dictGet st.seenTitlesState chatId |>.getD []) |> fun d => dictGet d key).getD []

-- ===================================
-- Pagination handler: the action=news branch of handle_postback
-- (app.py lines 793-866)
-- ===================================

/-- The replies the news branch can produce. -/
inductive NewsReply where
  | unknownCategory
  | cannotFetch (cname : String)
  | noMore (cname : String)
  | page (blocks : List String)
deriving DecidableEq

/-- The loop `for i, row in enumerate(page_items, start=start_idx + 1)`
building one text block per item (app.py lines 852-855); `i` is the
1-based global ordinal of the first item. -/
def buildBlocks (cname : String) : Nat → List NewsItem → List String
  | _, [] => []
  | i, row :: rest =>
    (cname ++ "新聞 第" ++ toString i ++ " 則\n" ++ row.title ++ "\n" ++ row.url)
      :: buildBlocks cname (i + 1) rest

/-- The slice `news_list[(p-1)*PAGE_SIZE : p*PAGE_SIZE]` shown on page `p`. -/
def sliceItems (p : Nat) (l : List NewsItem) : List NewsItem :=
  (l.take (p * PAGE_SIZE)).drop ((p - 1) * PAGE_SIZE)

/-- Embedding of the `action == 'news'` branch of `handle_postback`
(app.py lines 794-866).  The freshly scraped listing `news_list` is a
parameter standing for the `scrape_udn_category(category_key)` call. -/
def handle_postback_news (st : BotState) (chatId category_key : String)
    (news_list : List NewsItem) : NewsReply × BotState :=
  match dictGet CATEGORIES category_key with
  | none => (.unknownCategory, st)
  | some info =>
    let cname := info.name
    let chat_state := (dictGet st.newsPageState chatId).getD []
    let current_page := (dictGet chat_state category_key).getD 1
    if news_list.isEmpty then
      (.cannotFetch cname, st)
    else
      let start_idx := (current_page - 1) * PAGE_SIZE
      let end_idx := current_page * PAGE_SIZE
      let page_items := (news_list.take end_idx).drop start_idx
      if page_items.isEmpty then
        (.noMore cname,
          { newsPageState := dictSet st.newsPageState chatId (dictSet chat_state category_key 1),
            seenTitlesState := dictSet st.seenTitlesState chatId [] })
      else
        let chat_seen := (dictGet st.seenTitlesState chatId).getD []
        let all_list := (dictGet chat_seen "all").getD []
        let cat_list := (dictGet chat_seen category_key).getD []
        let all_list2 := all_list ++ page_items.map NewsItem.title
        let cat_list2 := cat_list ++ page_items.map NewsItem.title
        let chat_seen2 := dictSet (dictSet chat_seen "all" all_list2) category_key cat_list2
        let blocks := buildBlocks cname (start_idx + 1) page_items
        (.page blocks,
          { newsPageState :=
              dictSet st.newsPageState chatId (dictSet chat_state category_key (current_page + 1)),
            seenTitlesState := dictSet st.seenTitlesState chatId chat_seen2 })

-- ===================================
-- Scraper: scrape_udn_category (app.py lines 172-221)
-- ===================================

/-- One anchor element selected by `div.story-list__text a`: its stripped
text (`get_text(strip=True)`) and its `href` attribute (absent → `None`). -/
structure Anchor where
  text : String
  href : Option String
deriving DecidableEq

/-- Python `s.startswith(p)` (kernel-reducible, unlike `String.startsWith`). -/
def strStartsWith (s p : String) : Bool :=
  p.data.isPrefixOf s.data

/-- The per-anchor body of the extraction loop (app.py lines 202-218):
skip empty titles and missing links, prefix `BASE_URL` onto root-relative
links, and drop results whose link does not contain `udn.com`. -/
def processAnchor (a : Anchor) : Option NewsItem :=
  if a.text = "" ∨ a.href = none then none
  else
    let href0 := a.href.getD ""
    let href := if strStartsWith href0 "/" then BASE_URL ++ href0 else href0
    if containsSub href "udn.com" = false then none
    else some { title := a.text, url := href }

/-- Embedding of `scrape_udn_category` (app.py lines 172-221).  The HTTP
layer is a parameter: `fetched = none` models a failed `requests.get` or a
non-2xx status (the `except` branch returns `[]`); `fetched = some anchors`
models the anchors selected from a successfully fetched page. -/
def scrape_udn_category (category_key : String)
    (fetched : Option (List Anchor)) : List NewsItem :=
  if (dictGet CATEGORIES category_key).isNone then []
  else
    match fetched with
    | none => []
    | some anchors => anchors.filterMap processAnchor

-- ===================================
-- Sentiment tallier: analyze_sentiment_for_chat (app.py lines 378-424)
-- ===================================

/-- The per-title score loop (app.py lines 394-400): +1 for each positive
lexicon entry occurring in the title, −1 for each negative entry. -/
def titleScore (title : String) : Int :=
  let p := POSITIVE_WORDS.foldl
    (fun acc w => if containsSub title w then acc + 1 else acc) (0 : Int)
  NEGATIVE_WORDS.foldl
    (fun acc w => if containsSub title w then acc - 1 else acc) p

/-- The bucket loop of `analyze_sentiment_for_chat` (app.py lines 391-408):
fold each title into (pos, neg, neu) according to the sign of its score. -/
def tallyTitles (titles : List String) : Nat × Nat × Nat :=
  titles.foldl
    (fun acc title =>
      let s := titleScore title
      if s > 0 then (acc.1 + 1, acc.2.1, acc.2.2)
      else if s < 0 then (acc.1, acc.2.1 + 1, acc.2.2)
      else (acc.1, acc.2.1, acc.2.2 + 1))
    (0, 0, 0)

/-- Embedding of `analyze_sentiment_for_chat` (app.py lines 378-424):
returns `(total, pos, neg, neu, label)`, or `none` when the chat has no
seen-titles dict (or an empty/falsy one) or no titles for the category. -/
def analyze_sentiment_for_chat (st : BotState) (chatId category_key : String) :
    Option (Nat × Nat × Nat × Nat × String) :=
  match dictGet st.seenTitlesState chatId with
  | none => none
  | some chat_seen =>
    if chat_seen.isEmpty then none
    else
      let titles := (dictGet chat_seen category_key).getD []
      if titles.isEmpty then none
      else
        let t := tallyTitles titles
        let pos := t.1
        let neg := t.2.1
        let neu := t.2.2
        let total := pos + neg + neu
        if total = 0 then none
        else
          let label0 :=
            if pos > neg then "偏正向"
            else if neg > pos then "偏負向"
            else "中立"
          let label := if pos ≥ 3 ∧ neg ≥ 3 then "雙極化" else label0
          some (total, pos, neg, neu, label)

/-- Embedding of `analyze_sentiment_all_categories` (app.py lines 430-451):
one comparison line per category that has data, `none` when no category
has any. -/
def analyze_sentiment_all_categories (st : BotState) (chatId : String) :
    Option String :=
  let lines := CATEGORIES.foldl
    (fun acc kv =>
      match analyze_sentiment_for_chat st chatId kv.1 with
      | none => acc
      | some r =>
        acc ++ [kv.2.name ++ "：🙂 " ++ toString r.2.1 ++ " / ☹️ " ++
                toString r.2.2.1 ++ " / 😐 " ++ toString r.2.2.2.1 ++
                "（" ++ r.2.2.2.2 ++ "）"])
    []
  if lines.isEmpty then none
  else some (String.intercalate "\n" ("【五大新聞情緒比較】" :: lines))

-- ===================================
-- Word cloud / frequency chart: generate_wordcloud_for_chat
-- (app.py lines 276-372)
-- ===================================

/-- Observable outcome of `generate_wordcloud_for_chat`, up to the point
where rendering side effects would begin: `(None, None)` is returned before
any render either because there is no data or because the bundled font file
is missing; otherwise the function proceeds to render from `titles`. -/
inductive WordcloudOutcome where
  | noData
  | fontMissing
  | render (titles : List String)
deriving DecidableEq

/-- Embedding of the data-selection prefix of `generate_wordcloud_for_chat`
(app.py lines 284-306); `fontExists` stands for
`os.path.exists(WORDCLOUD_FONT_PATH)`.  Everything past line 306 only
renders images from `titles`, so it is abstracted as `.render titles`. -/
def generate_wordcloud_for_chat (st : BotState) (fontExists : Bool)
    (chatId : String) (category_key : Option String) : WordcloudOutcome :=
  match dictGet st.seenTitlesState chatId with
  | none => .noData
  | some chat_seen =>
    if chat_seen.isEmpty then .noData
    else
      let titles :=
        match category_key with
        | some k => (dictGet chat_seen k).getD []
        | none =>
          match dictGet chat_seen "all" with
          | some a => a
          | none => chat_seen.foldl (fun acc kv => acc ++ kv.2) []
      if titles.isEmpty then .noData
      else if fontExists = false then .fontMissing
      else .render titles

-- ===================================
-- Category detection and Chinese numerals (app.py lines 127-166)
-- ===================================

/-- Embedding of `detect_category_in_text` (app.py lines 127-136): the first
alias (in table order) occurring in the text decides the category. -/
def detect_category_in_text (user_text : String) : Option String :=
  CATEGORY_ALIASES.findSome?
    (fun kv => if kv.2.any (fun kw => containsSub user_text kw) then some kv.1 else none)

/-- The single-character entries of the `mapping` dict in
`chinese_num_to_int` (app.py lines 144-145). -/
def chineseDigit (c : Char) : Option Nat :=
  if c = '零' then some 0
  else if c = '一' then some 1
  else if c = '二' then some 2
  else if c = '兩' then some 2
  else if c = '三' then some 3
  else if c = '四' then some 4
  else if c = '五' then some 5
  else if c = '六' then some 6
  else if c = '七' then some 7
  else if c = '八' then some 8
  else if c = '九' then some 9
  else if c = '十' then some 10
  else none

/-- `mapping.get(s)` for a string key: the mapping only holds
single-character keys, so longer (or empty) keys miss. -/
def mappingGet (s : List Char) : Option Nat :=
  match s with
  | [c] => chineseDigit c
  | _ => none

/-- `s.isdigit()` for the characters reachable here (the caller's character
class only admits ASCII digits and CJK numerals, and CJK numerals are not
`str.isdigit`): nonempty and all ASCII digits. -/
def isDigitStr (s : List Char) : Bool :=
  !s.isEmpty && s.all Char.isDigit

/-- `int(s)` on an ASCII-digit string. -/
def strToNatDigits (s : List Char) : Nat :=
  s.foldl (fun acc c => acc * 10 + (c.toNat - '0'.toNat)) 0

/-- Embedding of `chinese_num_to_int` (app.py lines 139-166).  The empty
string is unreachable from the caller (the regex group is nonempty);
Python would raise on `s[0]` there, modelled as `none`. -/
def chinese_num_to_int : List Char → Option Nat
  | [] => none
  | s@(c0 :: rest) =>
    if isDigitStr s then some (strToNatDigits s)
    else
      match rest with
      | [] => chineseDigit c0
      | c1 :: _ =>
        if c0 = '十' then some (10 + (chineseDigit c1).getD 0)
        else if s.getLastD c1 = '十' then some ((chineseDigit c0).getD 0 * 10)
        else if s.contains '十' then
          let idx := s.findIdx (· = '十')
          let ten := (mappingGet (s.take idx)).getD 0
          let unit := (mappingGet (s.drop (idx + 1))).getD 0
          some (ten * 10 + unit)
        else none

-- ===================================
-- Summary request parsing (app.py lines 457-483)
-- ===================================

/-- Membership in the regex character class `[0-9零一二三四五六七八九十兩]`. -/
def numClassChar (c : Char) : Bool :=
  c.isDigit || c ∈ "零一二三四五六七八九十兩".data

/-- `re.search(r'第([0-9零一二三四五六七八九十兩]+)則', text)`: the group of
the leftmost match.  Since `則` is not in the class, a match at a given
`第` consumes the maximal class run and requires `則` right after it;
on failure the search resumes at the next position. -/
def findNumGroup : List Char → Option (List Char)
  | [] => none
  | c :: rest =>
    if c = '第' then
      let run := rest.takeWhile numClassChar
      let after := rest.drop run.length
      if !run.isEmpty && after.headD ' ' = '則' && !after.isEmpty then some run
      else findNumGroup rest
    else findNumGroup rest

/-- Embedding of `parse_summary_request` (app.py lines 457-483):
needs the word 摘要, a detectable category, a `第X則` numeral that parses
to a positive number. -/
def parse_summary_request (user_text : String) : Option (String × Nat) :=
  if containsSub user_text "摘要" = false then none
  else
    match detect_category_in_text user_text with
    | none => none
    | some category_key =>
      match findNumGroup user_text.data with
      | none => none
      | some raw_num =>
        match chinese_num_to_int raw_num with
        | none => none
        | some idx => if idx = 0 then none else some (category_key, idx)

-- ===================================
-- Text-message intent router (app.py lines 603-777)
-- ===================================

/-- The gratitude keyword list (app.py line 610). -/
def GRATITUDE_KEYWORDS : List String := ["謝謝", "感謝", "thank you", "thx"]

/-- The reset keyword list (app.py line 618). -/
def RESET_KEYWORDS : List String :=
  ["重新開始", "重抓", "從頭開始", "清空紀錄", "重算", "重置", "重新抓"]

def hasGratitude (t : String) : Bool :=
  GRATITUDE_KEYWORDS.any (fun kw => containsSub t kw)

def hasReset (t : String) : Bool :=
  RESET_KEYWORDS.any (fun kw => containsSub t kw)

/-- `any(alias in user_text for aliases in CATEGORY_ALIASES.values() ...)`
(app.py line 669). -/
def hasAnyAlias (t : String) : Bool :=
  CATEGORY_ALIASES.any (fun kv => kv.2.any (fun a => containsSub t a))

/-- The intent `handle_text_message` dispatches to. -/
inductive Intent where
  | gratitude
  | resetCategory (cat : String)
  | resetAll
  | summary (cat : String) (idx : Nat)
  | summaryHint
  | wordcloud (cat : Option String)
  | sentiment (cat : Option String)
  | fallback
deriving DecidableEq

/-- The conditional chain from the 文字雲 check down (app.py lines 681-770),
reached either directly or by falling through the 摘要 block. -/
def routeTail (t : String) : Intent :=
  if containsSub t "文字雲" then .wordcloud (detect_category_in_text t)
  else if containsSub t "情緒分析" then .sentiment (detect_category_in_text t)
  else .fallback

/-- Embedding of the dispatch structure of `handle_text_message`
(app.py lines 609-770), mapping the (stripped) inbound text to the branch
taken, in source order: gratitude, reset, summary, word cloud, sentiment,
fallback prompt. -/
def route (t : String) : Intent :=
  if hasGratitude t then .gratitude
  else if hasReset t then
    match detect_category_in_text t with
    | some c => .resetCategory c
    | none => .resetAll
  else if containsSub t "摘要" then
    match parse_summary_request t with
    | some ci => .summary ci.1 ci.2
    | none => if hasAnyAlias t then .summaryHint else routeTail t
  else routeTail t

-- ===================================
-- Summary resolver: fetch_article_summary (app.py lines 486-558)
-- ===================================

/-- The structured content of the messages `fetch_article_summary` can
return (the Python returns formatted strings; the fields are exactly the
values interpolated into them). -/
inductive SummaryMsg where
  | cannotFetchList (cname : String)
  | outOfRange (cname : String) (available : Nat) (requested : Nat)
  | bodyUnreadable (url : String)
  | noParse (cname : String) (index : Nat) (title url : String)
  | summary (cname : String) (index : Nat) (title text url : String)
deriving DecidableEq

/-- Python `full_text[:160] + ("..." if len(full_text) > 160 else "")`. -/
def truncateSummary (full_text : String) : String :=
  full_text.take 160 ++ (if full_text.length > 160 then "..." else "")

/-- Embedding of `fetch_article_summary` (app.py lines 486-558).
`news_list` stands for the fresh `scrape_udn_category(category_key)` result;
`articleFetch` stands for fetching the article page and extracting its body
paragraphs (`.error ()` = the request failed, `.ok ps` = the extracted
paragraph texts after the selector candidates and the `<p>` fallback).
An invalid category key raises `KeyError` in Python (`CATEGORIES[...]`),
modelled as `Except.error`. -/
def fetch_article_summary (category_key : String) (index : Nat)
    (news_list : List NewsItem)
    (articleFetch : NewsItem → Except Unit (List String)) :
    Except Unit (Bool × SummaryMsg) :=
  match dictGet CATEGORIES category_key with
  | none => .error ()
  | some info =>
    let cname := info.name
    if news_list.isEmpty then .ok (false, .cannotFetchList cname)
    else if index < 1 ∨ index > news_list.length then
      .ok (false, .outOfRange cname news_list.length index)
    else
      let item := news_list.getD (index - 1) ⟨"", ""⟩
      match articleFetch item with
      | .error _ => .ok (false, .bodyUnreadable item.url)
      | .ok paragraphs =>
        if paragraphs.isEmpty then
          .ok (true, .noParse cname index item.title item.url)
        else
          let full_text := String.intercalate " " paragraphs
          .ok (true, .summary cname index item.title (truncateSummary full_text) item.url)

-- ===================================
-- Webhook endpoint: callback (app.py lines 564-573)
-- ===================================

/-- Observable outcome of one POST to `/callback`. -/
inductive CallbackOutcome where
  | keyError
  | badRequest
  | okResponse
deriving DecidableEq

/-- Embedding of `callback` (app.py lines 564-573).  `headers` is the
request's header map; `handlerHandle` stands for `handler.handle(body,
signature)`, whose only caught failure is `InvalidSignatureError`
(`.error ()`).  A missing `X-Line-Signature` header makes the direct
subscript `request.headers['X-Line-Signature']` raise `KeyError` before
`handler.handle` is reached. -/
def callback (headers : List (String × String)) (body : String)
    (handlerHandle : String → String → Except Unit Unit) : CallbackOutcome :=
  match dictGet headers "X-Line-Signature" with
  | none => .keyError
  | some signature =>
    match handlerHandle body signature with
    | .error _ => .badRequest
    | .ok _ => .okResponse

-- ===================================
-- Top-level exception structure of the event handlers
-- (app.py lines 579-597, 603-777, 783-917, 923-930)
-- ===================================

/-- What escapes (or does not escape) one handler invocation whose body
produced `body : Except Err Unit`: `completed r` means the handler returned
normally, with `r = true` iff the generic error reply was sent from an
`except` block. -/
inductive HandlerOutcome (Err : Type) where
  | completed (repliedGenericError : Bool)
  | escaped (e : Err)
deriving DecidableEq

/-- A handler whose whole body sits inside `try ... except Exception`
(app.py lines 605-777 and 785-917): any exception is caught and answered
with the generic error reply. -/
def guardedHandler {Err : Type} (body : Except Err Unit) : HandlerOutcome Err :=
  match body with
  | .ok _ => .completed false
  | .error _ => .completed true

/-- A handler with no `try`/`except` at all (app.py lines 579-597 and
923-930): any exception escapes to the SDK dispatcher. -/
def unguardedHandler {Err : Type} (body : Except Err Unit) : HandlerOutcome Err :=
  match body with
  | .ok _ => .completed false
  | .error e => .escaped e

/-- `handle_text_message` (app.py lines 603-607, 772-777): guarded. -/
def handle_text_message_top {Err : Type} (body : Except Err Unit) : HandlerOutcome Err :=
  guardedHandler body

/-- `handle_postback` (app.py lines 783-785, 912-917): guarded. -/
def handle_postback_top {Err : Type} (body : Except Err Unit) : HandlerOutcome Err :=
  guardedHandler body

/-- `handle_follow` (app.py lines 579-597): no `try`/`except`. -/
def handle_follow_top {Err : Type} (body : Except Err Unit) : HandlerOutcome Err :=
  unguardedHandler body

/-- `welcome_group_member` (app.py lines 923-930): no `try`/`except`. -/
def welcome_group_member_top {Err : Type} (body : Except Err Unit) : HandlerOutcome Err :=
  unguardedHandler body

-- ===================================
-- Traces of pagination calls (for the seen-titles invariant)
-- ===================================

/-- One pagination request: the category button pressed and the listing the
scraper returned at that moment. -/
structure NewsCall where
  cat : String
  listing : List NewsItem
deriving DecidableEq

/-- Run a sequence of pagination calls for one conversation, collecting the
replies in order. -/
def runNews (chatId : String) : BotState → List NewsCall → BotState × List NewsReply
  | st, [] => (st, [])
  | st, c :: rest =>
    let r := handle_postback_news st chatId c.cat c.listing
    let rec_ := runNews chatId r.2 rest
    (rec_.1, r.1 :: rec_.2)

/-- The titles of the page window a call shows, given the state at the time
of the call. -/
def sliceTitles (st : BotState) (chatId : String) (c : NewsCall) : List String :=
  (sliceItems (pageOf st chatId c.cat) c.listing).map NewsItem.title

/-- The page windows of a trace: for each call, the category requested and
the titles its window showed. -/
def traceWindows (chatId : String) : BotState → List NewsCall → List (String × List String)
  | _, [] => []
  | st, c :: rest =>
    (c.cat, sliceTitles st chatId c) ::
      traceWindows chatId (handle_postback_news st chatId c.cat c.listing).2 rest

def isPage : NewsReply → Bool
  | .page _ => true
  | _ => false

/-- Concatenation, in order, of the windows of a trace belonging to one
category. -/
def catWindows (c : String) (ws : List (String × List String)) : List String :=
  ((ws.filter (fun w => w.1 = c)).map Prod.snd).flatten

/-- Concatenation, in order, of all windows of a trace. -/
def allWindows (ws : List (String × List String)) : List String :=
  (ws.map Prod.snd).flatten

-- ===================================
-- Spec-side formulations (for refinement statements)
-- ===================================

/-- Spec-side count of positive-lexicon entries matching a title as a
substring, each list entry counted at most once (`#positive-keyword
substring matches` in the spec's words). -/
def specPosMatches (title : String) : Nat :=
  (POSITIVE_WORDS.filter (fun w => containsSub title w)).length

/-- Spec-side count of negative-lexicon entries matching a title as a
substring, each list entry counted at most once. -/
def specNegMatches (title : String) : Nat :=
  (NEGATIVE_WORDS.filter (fun w => containsSub title w)).length

-- ===================================
-- Concrete fixtures used by witnesses and counterexamples
-- ===================================

/-- A six-item listing, enough for one full page plus one item. -/
def demoList : List NewsItem :=
  [⟨"t1", "https://udn.com/1"⟩, ⟨"t2", "https://udn.com/2"⟩,
   ⟨"t3", "https://udn.com/3"⟩, ⟨"t4", "https://udn.com/4"⟩,
   ⟨"t5", "https://udn.com/5"⟩, ⟨"t6", "https://udn.com/6"⟩]

/-- Anchors exercising every branch of the scraper's extraction loop. -/
def demoAnchors : List Anchor :=
  [⟨"a", some "/news/x"⟩, ⟨"", some "/dropped-empty-title"⟩,
   ⟨"b", some "https://other.com/z"⟩, ⟨"c", none⟩,
   ⟨"d", some "https://udn.com/q"⟩]

/-- A state whose conversation `"U1"` has accumulated exactly the two
titles of the spec's sentiment example under the `stock` category. -/
def sentimentExampleState : BotState :=
  ⟨[], [("U1", [("all", ["大盤上漲創新高", "重大車禍意外"]),
                ("stock", ["大盤上漲創新高", "重大車禍意外"])])]⟩

/-- A state whose conversation `"U1"` has seen-titles entries but all of
them empty (as after a per-category reset left empty lists behind). -/
def emptySeenState : BotState :=
  ⟨[], [("U1", [("all", []), ("sports", [])])]⟩

/-- A state where conversation `"U1"` is on page 2 of sports and has
accumulated one global title: pressing sports against a one-item listing
exhausts the category. -/
def exhaustedDemoState : BotState :=
  ⟨[("U1", [("sports", 2)])], [("U1", [("all", ["g1"]), ("global", ["g1"])])]⟩

/-- Three pagination calls: sports page 1, sports page 2 (one item left),
then global page 1. -/
def demoCalls : List NewsCall :=
  [⟨"sports", demoList⟩, ⟨"sports", demoList⟩, ⟨"global", demoList⟩]

-- ===================================
-- Helper lemmas
-- ===================================

theorem dictGet_dictSet_self {β : Type} (d : List (String × β)) (k : String) (v : β) :
    dictGet (dictSet d k v) k = some v := by
  induction d with
  | nil => simp [dictGet, dictSet]
  | cons hd tl ih =>
    obtain ⟨k0, v0⟩ := hd
    by_cases h : k0 = k
    · simp [dictGet, dictSet, h]
    · simpa [dictGet, dictSet, h] using ih

theorem dictGet_dictSet_ne {β : Type} (d : List (String × β)) (k k' : String) (v : β)
    (h : k' ≠ k) : dictGet (dictSet d k v) k' = dictGet d k' := by
  induction d with
  | nil => simp [dictGet, dictSet, Ne.symm h]
  | cons hd tl ih =>
    obtain ⟨k0, v0⟩ := hd
    by_cases h0 : k0 = k
    · subst h0
      simp [dictGet, dictSet, h, Ne.symm h]
    · by_cases h1 : k0 = k'
      · subst h1
        simp [dictGet, dictSet, h0]
      · simpa [dictGet, dictSet, h0, h1] using ih

theorem dictGet_mem {β : Type} (d : List (String × β)) (k : String) (v : β)
    (h : dictGet d k = some v) : (k, v) ∈ d := by
  induction d with
  | nil => simp [dictGet] at h
  | cons hd tl ih =>
    obtain ⟨k0, v0⟩ := hd
    by_cases h0 : k0 = k
    · subst h0
      simp [dictGet] at h
      simp [h]
    · simp [dictGet, h0] at h
      exact List.mem_cons_of_mem _ (ih h)

theorem foldl_add_count (p : String → Bool) (l : List String) (a : Int) :
    l.foldl (fun acc w => if p w then acc + 1 else acc) a =
      a + ((l.filter p).length : Int) := by
  induction l generalizing a with
  | nil => simp
  | cons hd tl ih =>
    by_cases h : p hd = true
    · simp [h, ih]
      ring
    · simp [h, ih]

theorem foldl_sub_count (p : String → Bool) (l : List String) (a : Int) :
    l.foldl (fun acc w => if p w then acc - 1 else acc) a =
      a - ((l.filter p).length : Int) := by
  induction l generalizing a with
  | nil => simp
  | cons hd tl ih =>
    by_cases h : p hd = true
    · simp [h, ih]
      ring
    · simp [h, ih]

theorem titleScore_eq_spec (title : String) :
    titleScore title = (specPosMatches title : Int) - specNegMatches title := by
  simp [titleScore, specPosMatches, specNegMatches, foldl_add_count, foldl_sub_count]

theorem tally_fold (titles : List String) (a b c : Nat) :
    titles.foldl
      (fun acc title =>
        let s := titleScore title
        if s > 0 then (acc.1 + 1, acc.2.1, acc.2.2)
        else if s < 0 then (acc.1, acc.2.1 + 1, acc.2.2)
        else (acc.1, acc.2.1, acc.2.2 + 1))
      (a, b, c) =
    (a + (titles.filter (fun t => 0 < titleScore t)).length,
     b + (titles.filter (fun t => titleScore t < 0)).length,
     c + (titles.filter (fun t => titleScore t = 0)).length) := by
  induction titles generalizing a b c with
  | nil => simp
  | cons hd tl ih =>
    rcases lt_trichotomy (titleScore hd) 0 with h | h | h
    · have h1 : ¬ (0 : Int) < titleScore hd := by omega
      have h2 : ¬ titleScore hd = 0 := by omega
      simp [h, h1, h2, ih]
      omega
    · have h1 : ¬ (0 : Int) < titleScore hd := by omega
      have h2 : ¬ titleScore hd < 0 := by omega
      simp [h, h1, h2, ih]
      omega
    · have h1 : ¬ titleScore hd < 0 := by omega
      have h2 : ¬ titleScore hd = 0 := by omega
      simp [h, h1, h2, ih]
      omega

theorem tallyTitles_eq (titles : List String) :
    tallyTitles titles =
      ((titles.filter (fun t => 0 < titleScore t)).length,
       (titles.filter (fun t => titleScore t < 0)).length,
       (titles.filter (fun t => titleScore t = 0)).length) := by
  simpa [tallyTitles] using tally_fold titles 0 0 0

theorem sign_filter_partition (titles : List String) :
    (titles.filter (fun t => 0 < titleScore t)).length +
      (titles.filter (fun t => titleScore t < 0)).length +
      (titles.filter (fun t => titleScore t = 0)).length = titles.length := by
  induction titles with
  | nil => simp
  | cons hd tl ih =>
    rcases lt_trichotomy (titleScore hd) 0 with h | h | h
    · have h1 : ¬ (0 : Int) < titleScore hd := by omega
      have h2 : ¬ titleScore hd = 0 := by omega
      simp [h, h1, h2]
      omega
    · have h1 : ¬ (0 : Int) < titleScore hd := by omega
      have h2 : ¬ titleScore hd < 0 := by omega
      simp [h, h1, h2]
      omega
    · have h1 : ¬ titleScore hd < 0 := by omega
      have h2 : ¬ titleScore hd = 0 := by omega
      simp [h, h1, h2]
      omega

/-- C5: The sentiment tallier is a pure function of the accumulated title
list and the two fixed keyword lists: each title's score is the number of
positive-list entries occurring in it as substrings (each entry at most
once) minus the number of negative-list entries so occurring, the title is
bucketed positive when the score is > 0, negative when < 0, neutral
otherwise, and the reported total is the number of accumulated titles. -/
theorem sentiment_tally_spec (st : BotState) (chatId cat : String)
    (chat_seen : List (String × List String)) (titles : List String)
    (h1 : dictGet st.seenTitlesState chatId = some chat_seen)
    (h2 : dictGet chat_seen cat = some titles)
    (h3 : titles ≠ []) :
    (∀ t, titleScore t = (specPosMatches t : Int) - specNegMatches t) ∧
    ∃ label, analyze_sentiment_for_chat st chatId cat =
      some (titles.length,
            (titles.filter (fun t => 0 < titleScore t)).length,
            (titles.filter (fun t => titleScore t < 0)).length,
            (titles.filter (fun t => titleScore t = 0)).length,
            label) := by
  refine ⟨titleScore_eq_spec, ?_⟩
  have hne : chat_seen ≠ [] := by
    intro e
    subst e
    simp [dictGet] at h2
  refine ⟨if (titles.filter (fun t => 0 < titleScore t)).length ≥ 3 ∧
             (titles.filter (fun t => titleScore t < 0)).length ≥ 3 then "雙極化"
          else if (titles.filter (fun t => 0 < titleScore t)).length >
                  (titles.filter (fun t => titleScore t < 0)).length then "偏正向"
          else if (titles.filter (fun t => titleScore t < 0)).length >
                  (titles.filter (fun t => 0 < titleScore t)).length then "偏負向"
          else "中立", ?_⟩
  have htot := sign_filter_partition titles
  have hlen : titles.length ≠ 0 := by
    intro e
    exact h3 (List.length_eq_zero.mp e)
  simp only [analyze_sentiment_for_chat, h1, List.isEmpty_iff, hne, if_false, h2,
    Option.getD_some, tallyTitles_eq]
  rw [if_neg (by simpa [List.isEmpty_iff] using h3)]
  rw [if_neg (by omega)]
  congr 1
  rw [htot]

/-- Witness for C5 at the spec's own example: the two accumulated titles
classify as one positive, one negative, zero neutral, total 2. -/
theorem sentiment_tally_spec_witness :
    (titleScore "大盤上漲創新高" =
      (specPosMatches "大盤上漲創新高" : Int) - specNegMatches "大盤上漲創新高") ∧
    analyze_sentiment_for_chat sentimentExampleState "U1" "stock" =
      some (2, 1, 1, 0, "中立") := by
  constructor
  · exact (sentiment_tally_spec sentimentExampleState "U1" "stock"
      [("all", ["大盤上漲創新高", "重大車禍意外"]),
       ("stock", ["大盤上漲創新高", "重大車禍意外"])]
      ["大盤上漲創新高", "重大車禍意外"] rfl (by decide) (by decide)).1 "大盤上漲創新高"
  · decide

theorem foldl_append_all_nil (d : List (String × List String))
    (h : ∀ kv ∈ d, kv.2 = []) (acc : List String) :
    d.foldl (fun acc kv => acc ++ kv.2) acc = acc := by
  induction d generalizing acc with
  | nil => simp
  | cons hd tl ih =>
    have hhd : hd.2 = [] := h hd (by simp)
    simp only [List.foldl_cons, hhd, List.append_nil]
    exact ih (fun kv hkv => h kv (List.mem_cons_of_mem _ hkv)) acc

/-- C6: With zero accumulated titles for a conversation, the word-cloud
request yields no image (no render is attempted) for any category or no
category, the sentiment tallier returns `none` for every category, and the
cross-category comparison returns `none`; all three are total functions. -/
theorem no_data_degrades (st : BotState) (chatId : String)
    (h : ∀ kv ∈ (dictGet st.seenTitlesState chatId).getD [], kv.2 = ([] : List String)) :
    (∀ fontExists category_key,
        generate_wordcloud_for_chat st fontExists chatId category_key = .noData) ∧
    (∀ cat, analyze_sentiment_for_chat st chatId cat = none) ∧
    analyze_sentiment_all_categories st chatId = none := by
  have hsent : ∀ cat, analyze_sentiment_for_chat st chatId cat = none := by
    intro cat
    unfold analyze_sentiment_for_chat
    cases hc : dictGet st.seenTitlesState chatId with
    | none => rfl
    | some chat_seen =>
      rw [hc] at h
      by_cases he : chat_seen.isEmpty
      · simp [he]
      · simp only [he, if_false, Bool.false_eq_true]
        cases hg : dictGet chat_seen cat with
        | none => simp
        | some titles =>
          have : titles = [] := h (cat, titles) (by simpa using dictGet_mem _ _ _ hg)
          simp [this]
  refine ⟨?_, hsent, ?_⟩
  · intro fontExists category_key
    unfold generate_wordcloud_for_chat
    cases hc : dictGet st.seenTitlesState chatId with
    | none => rfl
    | some chat_seen =>
      rw [hc] at h
      by_cases he : chat_seen.isEmpty
      · simp [he]
      · simp only [he, if_false, Bool.false_eq_true]
        cases category_key with
        | some k =>
          cases hg : dictGet chat_seen k with
          | none => simp [hg]
          | some titles =>
            have : titles = [] := h (k, titles) (by simpa using dictGet_mem _ _ _ hg)
            simp [hg, this]
        | none =>
          cases hg : dictGet chat_seen "all" with
          | none =>
            simp only
            rw [foldl_append_all_nil chat_seen (by simpa using h)]
            simp
          | some a =>
            have : a = [] := h ("all", a) (by simpa using dictGet_mem _ _ _ hg)
            simp [this]
  · unfold analyze_sentiment_all_categories
    simp [CATEGORIES, hsent]

/-- Witness for C6: a conversation whose seen-titles lists are all empty
gets the no-data outcome from both features. -/
theorem no_data_degrades_witness :
    generate_wordcloud_for_chat emptySeenState true "U1" none = .noData ∧
    generate_wordcloud_for_chat emptySeenState true "U1" (some "sports") = .noData ∧
    analyze_sentiment_for_chat emptySeenState "U1" "sports" = none ∧
    analyze_sentiment_all_categories emptySeenState "U1" = none := by
  have h := no_data_degrades emptySeenState "U1" (by decide)
  exact ⟨h.1 true none, h.1 true (some "sports"), h.2.1 "sports", h.2.2⟩

/-- C7 counterexample: the follow and member-joined handlers have no
top-level `try`/`except`, so an exception raised in their bodies escapes
the handler instead of being caught and answered. -/
theorem handler_exception_counterexample :
    handle_follow_top (Except.error "boom") = .escaped "boom" ∧
    welcome_group_member_top (Except.error "boom") = .escaped "boom" := by
  exact ⟨rfl, rfl⟩

/-- C7 (amended): the text-message and postback handlers wrap their whole
body in `try`/`except`, catching any exception and answering with the
generic error reply; the follow and member-joined handlers have no such
guard, so exceptions raised there propagate out of the handler. -/
theorem handler_exception_structure (Err : Type) (e : Err) :
    handle_text_message_top (Except.error e) = .completed true ∧
    handle_postback_top (Except.error e) = .completed true ∧
    (∀ body : Except Err Unit, ∀ b, handle_text_message_top body ≠ .escaped b) ∧
    (∀ body : Except Err Unit, ∀ b, handle_postback_top body ≠ .escaped b) ∧
    handle_follow_top (Except.error e) = .escaped e ∧
    welcome_group_member_top (Except.error e) = .escaped e := by
  refine ⟨rfl, rfl, ?_, ?_, rfl, rfl⟩ <;>
    rintro (body | body) b <;>
      simp [handle_text_message_top, handle_postback_top, guardedHandler]

/-- C8 counterexample: when the fresh scrape yields an empty listing, an
out-of-bounds index (1 > 0 items) is answered with the generic
cannot-fetch message, which names only the category — not the
bounds-violation message carrying the listing length and requested index
that the claim requires for every out-of-range index. -/
theorem summary_bounds_counterexample :
    fetch_article_summary "sports" 1 [] (fun _ => Except.error ()) =
      .ok (false, .cannotFetchList "運動") ∧
    SummaryMsg.cannotFetchList "運動" ≠ .outOfRange "運動" 0 1 := by
  exact ⟨rfl, by decide⟩

/-- C8 (amended): for a valid category whose fresh scrape is non-empty,
any index below 1 or above the listing length is answered with the failure
message that carries the actual listing length and the requested index,
and no out-of-range access is performed (the result is a normal return,
not an exception). -/
theorem summary_out_of_range (category_key : String) (info : CategoryInfo)
    (index : Nat) (news_list : List NewsItem)
    (articleFetch : NewsItem → Except Unit (List String))
    (hcat : dictGet CATEGORIES category_key = some info)
    (hne : news_list ≠ [])
    (hidx : index < 1 ∨ index > news_list.length) :
    fetch_article_summary category_key index news_list articleFetch =
      .ok (false, .outOfRange info.name news_list.length index) := by
  unfold fetch_article_summary
  rw [hcat]
  simp only [List.isEmpty_iff, hne, if_false]
  rw [if_pos hidx]

/-- Witness for C8 (amended): asking for item 7 of a six-item sports
listing reports "6 available, item 7 not found". -/
theorem summary_out_of_range_witness :
    fetch_article_summary "sports" 7 demoList (fun _ => Except.error ()) =
      .ok (false, .outOfRange "運動" 6 7) :=
  summary_out_of_range "sports" ⟨"運動", "https://udn.com/news/cate/2/7227"⟩ 7 demoList
    (fun _ => Except.error ()) (by decide) (by decide) (by decide)

/-- C9: the scraper returns the empty list for an unknown category key and
for a failed fetch; every item it does return has a non-empty title and a
link containing the source domain `udn.com`, obtained from some selected
anchor by prefixing `BASE_URL` onto root-relative hrefs and keeping other
hrefs as they are. -/
theorem scrape_spec (category_key : String) (fetched : Option (List Anchor)) :
    (dictGet CATEGORIES category_key = none →
      scrape_udn_category category_key fetched = []) ∧
    (fetched = none → scrape_udn_category category_key fetched = []) ∧
    (∀ anchors, fetched = some anchors →
      ∀ item ∈ scrape_udn_category category_key fetched,
        item.title ≠ "" ∧ containsSub item.url "udn.com" = true ∧
        ∃ a ∈ anchors, ∃ h, a.href = some h ∧ item.title = a.text ∧
          item.url = (if strStartsWith h "/" then BASE_URL ++ h else h)) := by
  refine ⟨fun h => by simp [scrape_udn_category, h], ?_, ?_⟩
  · intro h
    subst h
    simp [scrape_udn_category]
  · intro anchors hf item hmem
    subst hf
    unfold scrape_udn_category at hmem
    by_cases hu : (dictGet CATEGORIES category_key).isNone
    · simp [hu] at hmem
    · simp only [hu, if_false, Bool.false_eq_true] at hmem
      obtain ⟨a, hain, hpa⟩ := List.mem_filterMap.mp hmem
      by_cases hskip : a.text = "" ∨ a.href = none
      · rw [processAnchor, if_pos hskip] at hpa
        exact absurd hpa (by simp)
      · obtain ⟨htext, hhref⟩ := not_or.mp hskip
        obtain ⟨h0, hh0⟩ := Option.ne_none_iff_exists'.mp hhref
        simp only [processAnchor, if_neg hskip, hh0, Option.getD_some] at hpa
        by_cases hdom :
            containsSub (if strStartsWith h0 "/" then BASE_URL ++ h0 else h0) "udn.com" = false
        · rw [if_pos hdom] at hpa
          exact absurd hpa (by simp)
        · rw [if_neg hdom] at hpa
          rw [if_neg (by simp [htext])] at hpa
          obtain rfl := Option.some_injective _ hpa
          exact ⟨htext, by simpa using hdom, a, hain, h0, hh0, rfl, rfl⟩

/-- Witness for C9: an unknown key and a failed fetch both give `[]`, and
the item extracted from the root-relative demo anchor has the normalized
absolute URL. -/
theorem scrape_spec_witness :
    scrape_udn_category "weather" (some demoAnchors) = [] ∧
    scrape_udn_category "sports" none = [] ∧
    ((⟨"a", "https://udn.com/news/x"⟩ : NewsItem).title ≠ "" ∧
      containsSub "https://udn.com/news/x" "udn.com" = true ∧
      ∃ a ∈ demoAnchors, ∃ h, a.href = some h ∧
        "a" = a.text ∧
        "https://udn.com/news/x" = (if strStartsWith h "/" then BASE_URL ++ h else h)) := by
  refine ⟨(scrape_spec "weather" (some demoAnchors)).1 (by decide),
    (scrape_spec "sports" none).2.1 rfl, ?_⟩
  have hscrape : scrape_udn_category "sports" (some demoAnchors) =
      [⟨"a", "https://udn.com/news/x"⟩, ⟨"d", "https://udn.com/q"⟩] := rfl
  exact (scrape_spec "sports" (some demoAnchors)).2.2 demoAnchors rfl
    ⟨"a", "https://udn.com/news/x"⟩ (by rw [hscrape]; exact List.mem_cons_self _ _)

/-- C10: a POST with no `X-Line-Signature` header makes the callback raise
`KeyError` at the direct header subscript, before any signature check, so
it is answered neither with the HTTP 400 reserved for invalid signatures
nor with HTTP 200 "OK"; with the header present, an invalid signature
gives 400 and a valid one gives 200 "OK". -/
theorem callback_spec (headers : List (String × String)) (body : String)
    (handlerHandle : String → String → Except Unit Unit) :
    (dictGet headers "X-Line-Signature" = none →
      callback headers body handlerHandle = .keyError ∧
      callback headers body handlerHandle ≠ .badRequest ∧
      callback headers body handlerHandle ≠ .okResponse) ∧
    (∀ sig, dictGet headers "X-Line-Signature" = some sig →
      (handlerHandle body sig = .error () →
        callback headers body handlerHandle = .badRequest) ∧
      (handlerHandle body sig = .ok () →
        callback headers body handlerHandle = .okResponse)) := by
  constructor
  · intro h
    simp [callback, h]
  · intro sig hsig
    constructor
    · intro hh
      simp [callback, hsig, hh]
    · intro hh
      simp [callback, hsig, hh]

/-- Witness for C10: a header map without the signature header ends in
`KeyError`; with it, the two validation outcomes map to 400 and 200. -/
theorem callback_spec_witness :
    callback [("Content-Type", "application/json")] "{}" (fun _ _ => .ok ()) = .keyError ∧
    callback [("X-Line-Signature", "sig")] "{}" (fun _ _ => .error ()) = .badRequest ∧
    callback [("X-Line-Signature", "sig")] "{}" (fun _ _ => .ok ()) = .okResponse := by
  refine ⟨((callback_spec [("Content-Type", "application/json")] "{}" (fun _ _ => .ok ())).1
      (by decide)).1, ?_, ?_⟩
  · exact ((callback_spec [("X-Line-Signature", "sig")] "{}" (fun _ _ => .error ())).2
      "sig" (by decide)).1 rfl
  · exact ((callback_spec [("X-Line-Signature", "sig")] "{}" (fun _ _ => .ok ())).2
      "sig" (by decide)).2 rfl

-- ===================================
-- Pagination helper lemmas
-- ===================================

theorem buildBlocks_length (cname : String) (i : Nat) (items : List NewsItem) :
    (buildBlocks cname i items).length = items.length := by
  induction items generalizing i with
  | nil => rfl
  | cons hd tl ih => simp [buildBlocks, ih]

theorem buildBlocks_getD (cname : String) (i j : Nat) (items : List NewsItem)
    (h : j < items.length) :
    (buildBlocks cname i items).getD j "" =
      cname ++ "新聞 第" ++ toString (i + j) ++ " 則\n" ++
        (items.getD j ⟨"", ""⟩).title ++ "\n" ++ (items.getD j ⟨"", ""⟩).url := by
  induction items generalizing i j with
  | nil => simp at h
  | cons hd tl ih =>
    cases j with
    | zero => simp [buildBlocks]
    | succ j =>
      have hj : j < tl.length := by simpa using h
      have := ih (i + 1) j hj
      have harith : i + 1 + j = i + (j + 1) := by omega
      simpa [buildBlocks, harith] using this

theorem valid_cat_ne_all (cat : String) (info : CategoryInfo)
    (h : dictGet CATEGORIES cat = some info) : cat ≠ "all" := by
  intro e
  subst e
  simp [show dictGet CATEGORIES "all" = none from by decide] at h

theorem sliceItems_nil (p : Nat) : sliceItems p [] = [] := by
  simp [sliceItems]

/-- Full characterization of the handler on a non-empty page window. -/
theorem handle_postback_news_page (st : BotState) (chatId cat : String)
    (info : CategoryInfo) (nl : List NewsItem)
    (hcat : dictGet CATEGORIES cat = some info)
    (hslice : sliceItems (pageOf st chatId cat) nl ≠ []) :
    handle_postback_news st chatId cat nl =
      (.page (buildBlocks info.name ((pageOf st chatId cat - 1) * PAGE_SIZE + 1)
          (sliceItems (pageOf st chatId cat) nl)),
       { newsPageState := dictSet st.newsPageState chatId
           (dictSet ((dictGet st.newsPageState chatId).getD []) cat
             (pageOf st chatId cat + 1)),
         seenTitlesState := dictSet st.seenTitlesState chatId
           (dictSet
             (dictSet ((dictGet st.seenTitlesState chatId).getD []) "all"
               (((dictGet ((dictGet st.seenTitlesState chatId).getD []) "all").getD []) ++
                  (sliceItems (pageOf st chatId cat) nl).map NewsItem.title))
             cat
             (((dictGet ((dictGet st.seenTitlesState chatId).getD []) cat).getD []) ++
                (sliceItems (pageOf st chatId cat) nl).map NewsItem.title)) }) := by
  have hnl : nl.isEmpty = false := by
    rcases nl with _ | ⟨hd, tl⟩
    · exact absurd (sliceItems_nil _) hslice
    · rfl
  have hpg : ((nl.take (pageOf st chatId cat * PAGE_SIZE)).drop
      ((pageOf st chatId cat - 1) * PAGE_SIZE)).isEmpty = false := by
    rw [List.isEmpty_eq_false_iff_exists_mem]
    rcases List.exists_mem_of_ne_nil _ hslice with ⟨x, hx⟩
    exact ⟨x, by simpa [sliceItems] using hx⟩
  unfold handle_postback_news
  rw [hcat]
  simp only [pageOf, sliceItems] at hpg ⊢
  simp only [hnl, Bool.false_eq_true, if_false, hpg]

/-- Full characterization of the handler on an exhausted (empty) window
with a non-empty listing. -/
theorem handle_postback_news_noMore (st : BotState) (chatId cat : String)
    (info : CategoryInfo) (nl : List NewsItem)
    (hcat : dictGet CATEGORIES cat = some info)
    (hnl : nl ≠ [])
    (hslice : sliceItems (pageOf st chatId cat) nl = []) :
    handle_postback_news st chatId cat nl =
      (.noMore info.name,
       { newsPageState := dictSet st.newsPageState chatId
           (dictSet ((dictGet st.newsPageState chatId).getD []) cat 1),
         seenTitlesState := dictSet st.seenTitlesState chatId [] }) := by
  have hnl' : nl.isEmpty = false := by
    rcases nl with _ | ⟨hd, tl⟩
    · exact absurd rfl hnl
    · rfl
  have hpg : ((nl.take (pageOf st chatId cat * PAGE_SIZE)).drop
      ((pageOf st chatId cat - 1) * PAGE_SIZE)).isEmpty = true := by
    rw [List.isEmpty_iff]
    simpa [sliceItems] using hslice
  unfold handle_postback_news
  rw [hcat]
  simp only [pageOf, sliceItems] at hpg ⊢
  simp only [hnl', Bool.false_eq_true, if_false, hpg, if_true]

/-- C1: On a non-empty page window, the handler replies with exactly one
block per item of the slice `news_list[(P-1)*S : P*S]`, in slice order,
each block numbered with the global ordinal `(P-1)*S + local_index`
(1-based local index), and afterwards the category's page counter for the
conversation equals `P + 1`, where `P` is the stored counter (default 1). -/
theorem pagination_page_spec (st : BotState) (chatId cat : String)
    (info : CategoryInfo) (nl : List NewsItem)
    (hcat : dictGet CATEGORIES cat = some info)
    (hslice : sliceItems (pageOf st chatId cat) nl ≠ []) :
    (handle_postback_news st chatId cat nl).1 =
      .page (buildBlocks info.name ((pageOf st chatId cat - 1) * PAGE_SIZE + 1)
        (sliceItems (pageOf st chatId cat) nl)) ∧
    (buildBlocks info.name ((pageOf st chatId cat - 1) * PAGE_SIZE + 1)
        (sliceItems (pageOf st chatId cat) nl)).length =
      (sliceItems (pageOf st chatId cat) nl).length ∧
    (∀ j, j < (sliceItems (pageOf st chatId cat) nl).length →
      (buildBlocks info.name ((pageOf st chatId cat - 1) * PAGE_SIZE + 1)
          (sliceItems (pageOf st chatId cat) nl)).getD j "" =
        info.name ++ "新聞 第" ++
          toString ((pageOf st chatId cat - 1) * PAGE_SIZE + (j + 1)) ++ " 則\n" ++
          ((sliceItems (pageOf st chatId cat) nl).getD j ⟨"", ""⟩).title ++ "\n" ++
          ((sliceItems (pageOf st chatId cat) nl).getD j ⟨"", ""⟩).url) ∧
    pageOf (handle_postback_news st chatId cat nl).2 chatId cat =
      pageOf st chatId cat + 1 := by
  have hmain := handle_postback_news_page st chatId cat info nl hcat hslice
  refine ⟨by rw [hmain], buildBlocks_length _ _ _, ?_, ?_⟩
  · intro j hj
    have := buildBlocks_getD info.name ((pageOf st chatId cat - 1) * PAGE_SIZE + 1) j
      (sliceItems (pageOf st chatId cat) nl) hj
    have harith : (pageOf st chatId cat - 1) * PAGE_SIZE + 1 + j =
        (pageOf st chatId cat - 1) * PAGE_SIZE + (j + 1) := by omega
    rwa [harith] at this
  · rw [hmain]
    simp only [pageOf, dictGet_dictSet_self, Option.getD_some]

/-- Witness for C1: a first sports postback against a six-item listing
yields the five blocks numbered 1..5 and leaves the sports counter at 2. -/
theorem pagination_page_spec_witness :
    (handle_postback_news initialState "U1" "sports" demoList).1 =
      .page (buildBlocks "運動" 1 (sliceItems 1 demoList)) ∧
    (buildBlocks "運動" 1 (sliceItems 1 demoList)).getD 4 "" =
      "運動" ++ "新聞 第" ++ toString 5 ++ " 則\n" ++
        ((sliceItems 1 demoList).getD 4 ⟨"", ""⟩).title ++ "\n" ++
        ((sliceItems 1 demoList).getD 4 ⟨"", ""⟩).url ∧
    pageOf (handle_postback_news initialState "U1" "sports" demoList).2 "U1" "sports" = 2 := by
  have h := pagination_page_spec initialState "U1" "sports"
    ⟨"運動", "https://udn.com/news/cate/2/7227"⟩ demoList (by decide) (by decide)
  exact ⟨h.1, h.2.2.1 4 (by decide), h.2.2.2⟩

/-- C2 counterexample: exhausting the sports category clears the
conversation's seen-titles for *every* category, not only for sports — the
accumulated global titles are wiped as well, contradicting the claim that
other categories' seen-titles remain unchanged. -/
theorem pagination_exhaustion_counterexample :
    (handle_postback_news exhaustedDemoState "U1" "sports"
        [⟨"s1", "https://udn.com/a"⟩]).1 = .noMore "運動" ∧
    seenCat exhaustedDemoState "U1" "global" = ["g1"] ∧
    seenCat (handle_postback_news exhaustedDemoState "U1" "sports"
        [⟨"s1", "https://udn.com/a"⟩]).2 "U1" "global" = [] := by
  exact ⟨rfl, rfl, rfl⟩

/-- C2 (amended): when a pagination request finds an empty window (counter
beyond the listing), the reply is the no-more-news notice, the category's
page counter is reset to 1, and the conversation's seen-titles are cleared
for every key — the requested category and all others alike. -/
theorem pagination_exhaustion_spec (st : BotState) (chatId cat : String)
    (info : CategoryInfo) (nl : List NewsItem)
    (hcat : dictGet CATEGORIES cat = some info)
    (hnl : nl ≠ [])
    (hslice : sliceItems (pageOf st chatId cat) nl = []) :
    (handle_postback_news st chatId cat nl).1 = .noMore info.name ∧
    pageOf (handle_postback_news st chatId cat nl).2 chatId cat = 1 ∧
    (∀ key, seenCat (handle_postback_news st chatId cat nl).2 chatId key = []) := by
  have hmain := handle_postback_news_noMore st chatId cat info nl hcat hnl hslice
  refine ⟨by rw [hmain], ?_, ?_⟩
  · rw [hmain]
    simp only [pageOf, dictGet_dictSet_self, Option.getD_some]
  · intro key
    rw [hmain]
    simp only [seenCat, dictGet_dictSet_self, Option.getD_some, dictGet, Option.getD_none]

/-- Witness for C2 (amended): page 2 of a one-item sports listing is
empty, so the user gets the notice, the sports counter returns to 1, and
the seen-title lists come back empty. -/
theorem pagination_exhaustion_spec_witness :
    (handle_postback_news exhaustedDemoState "U1" "sports"
        [⟨"s1", "https://udn.com/a"⟩]).1 = .noMore "運動" ∧
    pageOf (handle_postback_news exhaustedDemoState "U1" "sports"
        [⟨"s1", "https://udn.com/a"⟩]).2 "U1" "sports" = 1 ∧
    seenCat (handle_postback_news exhaustedDemoState "U1" "sports"
        [⟨"s1", "https://udn.com/a"⟩]).2 "U1" "all" = [] := by
  have h := pagination_exhaustion_spec exhaustedDemoState "U1" "sports"
    ⟨"運動", "https://udn.com/news/cate/2/7227"⟩ [⟨"s1", "https://udn.com/a"⟩]
    (by decide) (by decide) (by decide)
  exact ⟨h.1, h.2.1, h.2.2 "all"⟩

/-- C3 counterexample: the text 謝謝請重新開始 contains both a gratitude
keyword (謝謝) and a reset keyword (重新開始) and names no category, yet
the router takes the gratitude branch, not the reset branch the claim
requires. -/
theorem router_priority_counterexample :
    containsSub "謝謝請重新開始" "重新開始" = true ∧
    containsSub "謝謝請重新開始" "謝謝" = true ∧
    route "謝謝請重新開始" = .gratitude ∧
    route "謝謝請重新開始" ≠ .resetAll := by
  exact ⟨by decide, by decide, by decide, by decide⟩

/-- C3 (amended): the router evaluates its intents in the fixed priority
order (1) gratitude keywords, (2) reset keywords, (3) summary intent,
(4) word-cloud keywords, (5) sentiment keywords, (6) fallback category
prompt; in particular a text containing both a reset keyword and a
gratitude keyword takes the gratitude branch. -/
theorem router_priority (t : String) :
    (hasGratitude t = true → route t = .gratitude) ∧
    (hasGratitude t = false → hasReset t = true →
      route t = (match detect_category_in_text t with
                 | some c => Intent.resetCategory c
                 | none => Intent.resetAll)) ∧
    (hasGratitude t = false → hasReset t = false →
      ∀ c i, parse_summary_request t = some (c, i) → route t = .summary c i) ∧
    (hasGratitude t = false → hasReset t = false → containsSub t "摘要" = false →
      containsSub t "文字雲" = true → route t = .wordcloud (detect_category_in_text t)) ∧
    (hasGratitude t = false → hasReset t = false → containsSub t "摘要" = false →
      containsSub t "文字雲" = false → containsSub t "情緒分析" = true →
      route t = .sentiment (detect_category_in_text t)) ∧
    (hasGratitude t = false → hasReset t = false → containsSub t "摘要" = false →
      containsSub t "文字雲" = false → containsSub t "情緒分析" = false →
      route t = .fallback) := by
  refine ⟨?_, ?_, ?_, ?_, ?_, ?_⟩
  · intro hg
    simp [route, hg]
  · intro hg hr
    simp [route, hg, hr]
  · intro hg hr c i hp
    have h1 : containsSub t "摘要" = true := by
      by_contra hc
      have : containsSub t "摘要" = false := by
        cases hx : containsSub t "摘要"
        · rfl
        · exact absurd hx hc
      rw [parse_summary_request, this] at hp
      simp at hp
    simp [route, hg, hr, h1, hp]
  · intro hg hr hs hw
    simp [route, routeTail, hg, hr, hs, hw]
  · intro hg hr hs hw hsent
    simp [route, routeTail, hg, hr, hs, hw, hsent]
  · intro hg hr hs hw hsent
    simp [route, routeTail, hg, hr, hs, hw, hsent]

/-- Witness for C3 (amended): one concrete text per branch of the
priority order. -/
theorem router_priority_witness :
    route "謝謝" = .gratitude ∧
    route "重新開始" = .resetAll ∧
    route "我想看運動新聞第三則摘要" = .summary "sports" 3 ∧
    route "文字雲" = .wordcloud none ∧
    route "股票情緒分析" = .sentiment (some "stock") ∧
    route "哈囉" = .fallback := by
  refine ⟨(router_priority "謝謝").1 (by decide),
    ?_,
    (router_priority "我想看運動新聞第三則摘要").2.2.1 (by decide) (by decide)
      "sports" 3 (by decide),
    ?_, ?_,
    (router_priority "哈囉").2.2.2.2.2 (by decide) (by decide) (by decide)
      (by decide) (by decide)⟩
  · rw [(router_priority "重新開始").2.1 (by decide) (by decide)]
    decide
  · rw [(router_priority "文字雲").2.2.2.1 (by decide) (by decide) (by decide) (by decide)]
    decide
  · rw [(router_priority "股票情緒分析").2.2.2.2.1 (by decide) (by decide) (by decide)
      (by decide) (by decide)]
    decide

-- ===================================
-- Seen-titles invariant over pagination traces
-- ===================================

theorem catWindows_cons (key : String) (w : String × List String)
    (ws : List (String × List String)) :
    catWindows key (w :: ws) = (if w.1 = key then w.2 else []) ++ catWindows key ws := by
  by_cases h : w.1 = key <;> simp [catWindows, h]

theorem allWindows_cons (w : String × List String) (ws : List (String × List String)) :
    allWindows (w :: ws) = w.2 ++ allWindows ws := by
  simp [allWindows]

/-- One page-producing pagination step appends the window's titles to the
requested category's seen list and to the "all" list, and leaves every
other key's seen list unchanged. -/
theorem step_page_seen (st : BotState) (chatId cat : String) (nl : List NewsItem)
    (h : isPage (handle_postback_news st chatId cat nl).1 = true) :
    cat ≠ "all" ∧
    (∀ key, key ≠ "all" →
      seenCat (handle_postback_news st chatId cat nl).2 chatId key =
        seenCat st chatId key ++
          (if key = cat then sliceTitles st chatId ⟨cat, nl⟩ else [])) ∧
    seenCat (handle_postback_news st chatId cat nl).2 chatId "all" =
      seenCat st chatId "all" ++ sliceTitles st chatId ⟨cat, nl⟩ := by
  cases hcat : dictGet CATEGORIES cat with
  | none =>
    rw [handle_postback_news, hcat] at h
    simp [isPage] at h
  | some info =>
    by_cases hsl : sliceItems (pageOf st chatId cat) nl = []
    · by_cases hnl : nl = []
      · subst hnl
        rw [handle_postback_news, hcat] at h
        simp [isPage] at h
      · rw [handle_postback_news_noMore st chatId cat info nl hcat hnl hsl] at h
        simp [isPage] at h
    · have hmain := handle_postback_news_page st chatId cat info nl hcat hsl
      have hcne := valid_cat_ne_all cat info hcat
      refine ⟨hcne, ?_, ?_⟩
      · intro key hkey
        rw [hmain]
        by_cases hk : key = cat
        · subst hk
          simp only [seenCat, sliceTitles, dictGet_dictSet_self, Option.getD_some, if_true]
        · simp only [seenCat, sliceTitles, dictGet_dictSet_self, Option.getD_some,
            dictGet_dictSet_ne _ _ _ _ hk, dictGet_dictSet_ne _ _ _ _ hkey,
            if_neg hk, List.append_nil]
      · rw [hmain]
        simp only [seenCat, sliceTitles, dictGet_dictSet_self, Option.getD_some,
          dictGet_dictSet_ne _ _ _ _ (Ne.symm hcne)]

/-- Generalized invariant: running page-only pagination calls appends, per
key, exactly the windows of the trace. -/
theorem runNews_seen_gen (chatId : String) (calls : List NewsCall) (st : BotState)
    (h : ∀ r ∈ (runNews chatId st calls).2, isPage r = true) :
    (∀ key, key ≠ "all" →
      seenCat (runNews chatId st calls).1 chatId key =
        seenCat st chatId key ++ catWindows key (traceWindows chatId st calls)) ∧
    seenCat (runNews chatId st calls).1 chatId "all" =
      seenCat st chatId "all" ++ allWindows (traceWindows chatId st calls) := by
  induction calls generalizing st with
  | nil => simp [runNews, traceWindows, catWindows, allWindows]
  | cons c rest ih =>
    have hrun : runNews chatId st (c :: rest) =
        ((runNews chatId (handle_postback_news st chatId c.cat c.listing).2 rest).1,
         (handle_postback_news st chatId c.cat c.listing).1 ::
           (runNews chatId (handle_postback_news st chatId c.cat c.listing).2 rest).2) := rfl
    rw [hrun] at h ⊢
    have hhead : isPage (handle_postback_news st chatId c.cat c.listing).1 = true :=
      h _ (by simp)
    have htail : ∀ r ∈ (runNews chatId
        (handle_postback_news st chatId c.cat c.listing).2 rest).2, isPage r = true :=
      fun r hr => h r (by simp [hr])
    obtain ⟨hcne, hstep, hstepall⟩ := step_page_seen st chatId c.cat c.listing hhead
    obtain ⟨ihk, ihall⟩ := ih _ htail
    have htr : traceWindows chatId st (c :: rest) =
        (c.cat, sliceTitles st chatId c) ::
          traceWindows chatId (handle_postback_news st chatId c.cat c.listing).2 rest := rfl
    rw [htr]
    constructor
    · intro key hkey
      rw [ihk key hkey, hstep key hkey, catWindows_cons, List.append_assoc]
      by_cases hk : key = c.cat
      · subst hk
        simp
      · simp [hk, Ne.symm hk]
    · rw [ihall, hstepall, allWindows_cons, List.append_assoc]

/-- C4: after any sequence of pagination calls for one conversation in
which every call produced a page (no reset, no exhaustion, no fetch
failure), each category's seen-titles list equals the concatenation, in
order, of the titles of the page windows returned for that category, and
the "all" list equals the concatenation of all returned windows in call
order. -/
theorem seen_titles_invariant (chatId : String) (calls : List NewsCall)
    (h : ∀ r ∈ (runNews chatId initialState calls).2, isPage r = true) :
    (∀ key info, dictGet CATEGORIES key = some info →
      seenCat (runNews chatId initialState calls).1 chatId key =
        catWindows key (traceWindows chatId initialState calls)) ∧
    seenCat (runNews chatId initialState calls).1 chatId "all" =
      allWindows (traceWindows chatId initialState calls) := by
  obtain ⟨hk, hall⟩ := runNews_seen_gen chatId calls initialState h
  constructor
  · intro key info hkey
    rw [hk key (valid_cat_ne_all key info hkey)]
    rfl
  · rw [hall]
    rfl

/-- Witness for C4: two sports pages then one global page against the
six-item demo listing; the accumulated lists match the concatenated
windows. -/
theorem seen_titles_invariant_witness :
    seenCat (runNews "U1" initialState demoCalls).1 "U1" "sports" =
      catWindows "sports" (traceWindows "U1" initialState demoCalls) ∧
    seenCat (runNews "U1" initialState demoCalls).1 "U1" "all" =
      allWindows (traceWindows "U1" initialState demoCalls) := by
  have h := seen_titles_invariant "U1" demoCalls (by decide)
  exact ⟨h.1 "sports" ⟨"運動", "https://udn.com/news/cate/2/7227"⟩ (by decide), h.2⟩

end LinebotApp
